import Mathlib

/-!
# Verification of the B055 Discord bot's module lifecycle core

Shallow embedding of the hot-reload module system of `B055-dev/DiscordBot`:
  * `src/utils/config.py`  — `Config.get` (dot-path lookup over JSON data),
  * `src/module_base.py`   — `ModuleBase.enabled` (allow/deny enablement policy),
  * `src/bot.py`           — `B055Bot.get_module_files`, `B055Bot.check_modules`,
                             `B055Bot.add_module`, `B055Bot.auto_load_modules`,
  * `src/modules/admin.py` — `Admin.reload` (operator reload command).

Python sets are embedded as duplicate-free `List String` values with
membership-faithful operations; timestamps (`time.time()`, `os.path.getmtime`)
are embedded as integers (only their linear order matters to the code);
exceptions raised by `load_extension` / `unload_extension` / `reload_extension`
are embedded as per-id boolean oracles, since the code treats every raised
exception uniformly (catch, log, continue).
-/

namespace B055

/-! ## JSON data model (`config.json` contents, `src/utils/config.py`) -/

/-- A JSON-like value, the shape of `Config.config_data` loaded by
`json.load` in `Config._load_config`. -/
inductive JSON where
  | null : JSON
  | bool (b : Bool) : JSON
  | num (n : Int) : JSON
  | str (s : String) : JSON
  | arr (elems : List JSON) : JSON
  | obj (fields : List (String × JSON)) : JSON

/-- Lookup of a key in a JSON object's field list (Python dict indexing
`value[k]` on a dict: first binding wins, as dict keys are unique). -/
def JSON.lookup : List (String × JSON) → String → Option JSON
  | [], _ => none
  | (k, v) :: rest, key => if k = key then some v else JSON.lookup rest key

/-- The Python exceptions that subscripting `value[k]` with a string key can
raise while `Config.get` walks the path: `KeyError` when a dict lacks the
key, `TypeError` when the value is not a dict (lists, strings, numbers,
booleans and `None` all raise `TypeError` on a string subscript). -/
inductive PyIndexError where
  | keyError : PyIndexError
  | typeError : PyIndexError
deriving DecidableEq, Repr

/-- One step `value = value[k]` of the loop in `Config.get`
(src/utils/config.py lines 78-79). -/
def JSON.index : JSON → String → Except PyIndexError JSON
  | .obj fields, k =>
    match JSON.lookup fields k with
    | some v => .ok v
    | none => .error .keyError
  | _, _ => .error .typeError

/-- The `for k in keys: value = value[k]` loop of `Config.get`, with the
first raised exception aborting the loop. -/
def Config.getLoop (data : JSON) : List String → Except PyIndexError JSON
  | [] => .ok data
  | k :: ks =>
    match JSON.index data k with
    | .ok v => Config.getLoop v ks
    | .error e => .error e

/-- Character-list worker for Python `key.split(".")`: Python's split on a
one-character separator always yields at least one (possibly empty)
segment, and adjacent separators yield empty segments. -/
def splitDotChars : List Char → List (List Char)
  | [] => [[]]
  | c :: cs =>
    if c = '.' then [] :: splitDotChars cs
    else
      match splitDotChars cs with
      | [] => [[c]]
      | seg :: rest => (c :: seg) :: rest

/-- Python `key.split(".")` (the `keys = key.split(".")` line of
`Config.get`), implemented structurally over the string's characters so
that it evaluates on concrete inputs. -/
def pySplitDot (key : String) : List String :=
  (splitDotChars key.data).map String.mk

/-- Translation of `Config.get` (src/utils/config.py lines 72-82): split the
key on dots, walk the data, and on `KeyError` or `TypeError` return the
default. -/
def Config.get (data : JSON) (key : String) (default : JSON) : JSON :=
  match Config.getLoop data (pySplitDot key) with
  | .ok v => v
  | .error _ => default

/-- Modelled from the spec's description of the lookup contract: follow the
dot-separated segments through nested dictionaries, yielding the value at
the full path when every segment exists, and nothing when a segment is
missing or a non-dictionary value would be traversed. Used as the
specification side for `Config.get`. -/
def followPath : JSON → List String → Option JSON
  | v, [] => some v
  | .obj fields, k :: ks =>
    match JSON.lookup fields k with
    | some v => followPath v ks
    | none => none
  | _, _ :: _ => none

/-! ## Python set primitives

Python `set` values are embedded as duplicate-free `List String` values; the
operations below are membership-faithful translations of `set.add`,
`set.remove`, set difference and set intersection. -/

/-- Python `s.add(x)`: a no-op when the element is present. -/
def pyAdd (s : List String) (x : String) : List String :=
  if x ∈ s then s else s ++ [x]

/-- Python `s.remove(x)`: drops the element (sets hold no duplicates; the
call sites in `check_modules` only remove elements that are present, so the
`KeyError` branch of `set.remove` is unreachable there). -/
def pyRemove (s : List String) (x : String) : List String :=
  s.filter (fun y => y ≠ x)

/-- Python `a - b` on sets. -/
def pyDiff (a b : List String) : List String :=
  a.filter (fun x => x ∉ b)

/-- Python `a & b` on sets. -/
def pyInter (a b : List String) : List String :=
  a.filter (fun x => x ∈ b)

/-! ## Filesystem snapshot and scanner (`B055Bot.get_module_files`) -/

/-- Snapshot of the `src/modules` directory: whether it exists, the file
names inside it, and each file's modification timestamp
(`os.path.getmtime`, embedded as an integer since the code only compares
timestamps). -/
structure FS where
  dirExists : Bool
  files : List String
  mtime : String → Int

/-- Python `s.endswith(t)`, over character lists so that it evaluates on
concrete inputs. -/
def pyEndsWith (s t : String) : Bool :=
  t.data.isSuffixOf s.data

/-- Python `s.startswith(t)`, over character lists so that it evaluates on
concrete inputs. -/
def pyStartsWith (s t : String) : Bool :=
  t.data.isPrefixOf s.data

/-- Python `f[:-n]`: every character but the last `n` (Python yields the
empty string when the slice underruns, as does `List.take` here). -/
def pyDropLast (s : String) (n : Nat) : String :=
  String.mk (s.data.take (s.data.length - n))

/-- The filename filter of `get_module_files` (src/bot.py line 89):
`f.endswith(".py") and not f.startswith("_")`. -/
def isModuleFile (f : String) : Bool :=
  pyEndsWith f ".py" && !pyStartsWith f "_"

/-- Translation of `B055Bot.get_module_files` (src/bot.py lines 80-90).
Returns the filesystem after the call (the directory is created when
missing) together with the resulting id set: `{f[:-3] for f in
os.listdir(modules_dir) if f.endswith(".py") and not f.startswith("_")}`.
The set comprehension is rendered as filter-map-dedup. -/
def get_module_files (fs : FS) : FS × List String :=
  if fs.dirExists = false then
    ({ fs with dirExists := true }, [])
  else
    (fs, ((fs.files.filter isModuleFile).map (fun f => pyDropLast f 3)).dedup)

/-- Python `os.path.exists` on `modules/<name>.py` against the snapshot. -/
def fileExists (fs : FS) (path : String) : Bool :=
  fs.dirExists && fs.files.contains path

/-- The on-disk filename backing module id `name`. -/
def moduleFileName (name : String) : String :=
  name ++ ".py"

/-! ## Bot state and lifecycle operations (`src/bot.py`) -/

/-- The module-related state of `B055Bot`: the `self.modules` dict (only
its insertion-ordered key set matters to the claims), the
`self.loaded_modules` set, and the `self.last_module_check` timestamp. -/
structure BotState where
  modules : List String
  loadedModules : List String
  lastModuleCheck : Int

/-- The scanner as invoked on the bot (`self.get_module_files()`): the
method body (src/bot.py lines 80-90) reads and writes filesystem state
only and references no registry field of `self`, so the bot state rides
through unchanged. -/
def get_module_files_on (fs : FS) (st : BotState) :
    (FS × BotState) × List String :=
  (((get_module_files fs).1, st), (get_module_files fs).2)

/-- The state set up by `B055Bot.__init__` (src/bot.py lines 33-35):
`self.modules = {}`, `self.last_module_check = 0`,
`self.loaded_modules = set()`. -/
def initState : BotState :=
  { modules := [], loadedModules := [], lastModuleCheck := 0 }

/-- Outcome oracles for the `discord.py` extension operations invoked by the
bot: whether `load_extension` / `unload_extension` / `reload_extension`
raises for a given module name (the code treats every raised exception
uniformly: catch, log, continue), the registry id that the module file's
`setup` passes to `add_module` on a successful (re)load, and the value of
`time.time()` at the end of the cycle. -/
structure OpEnv where
  loadOk : String → Bool
  unloadOk : String → Bool
  reloadOk : String → Bool
  idOf : String → String
  now : Int

/-- Translation of `B055Bot.add_module` (src/bot.py lines 147-151):
`self.modules[module.id] = module` — a key insertion, never a removal. -/
def add_module (st : BotState) (id : String) : BotState :=
  { st with modules := pyAdd st.modules id }

/-- One iteration of the load loop of `check_modules` (src/bot.py lines
100-108): on success, `load_extension` runs the module's `setup`, which
calls `add_module`, and then `self.loaded_modules.add(module_name)` runs;
on a raised exception the error is logged and the state is unchanged. -/
def loadOne (env : OpEnv) (st : BotState) (name : String) : BotState :=
  if env.loadOk name then
    { add_module st (env.idOf name) with
        loadedModules := pyAdd st.loadedModules name }
  else st

/-- One iteration of the unload loop of `check_modules` (src/bot.py lines
112-120): `self.loaded_modules.remove(module_name)` runs only after
`unload_extension` returns without raising; on a raised exception the
error is logged and the loaded set is unchanged. `unload_extension` does
not touch `self.modules`. -/
def unloadOne (env : OpEnv) (st : BotState) (name : String) : BotState :=
  if env.unloadOk name then
    { st with loadedModules := pyRemove st.loadedModules name }
  else st

/-- One invocation of `reload_extension` in the reload loop of
`check_modules` (src/bot.py lines 128-134): on success the module's
`setup` re-runs `add_module` (re-inserting its key); neither outcome
touches `self.loaded_modules`. -/
def reloadOne (env : OpEnv) (st : BotState) (name : String) : BotState :=
  if env.reloadOk name then add_module st (env.idOf name) else st

/-- Everything one detection cycle produced: the filesystem after the scan,
the final bot state, and the three per-cycle sets — ids passed to
`load_extension`, ids passed to `unload_extension`, and ids passed to
`reload_extension`. -/
structure CycleTrace where
  fs : FS
  state : BotState
  toLoad : List String
  toUnload : List String
  reloaded : List String

/-- Translation of one body execution of the `check_modules` task
(src/bot.py lines 92-140): scan, load `current - loaded`, unload
`loaded - current`, reload each member of `current & loaded` whose file
exists and whose mtime is newer than `last_module_check`, then set
`last_module_check = time.time()`. Per-id exceptions are caught inside
the loops (the oracles in `env` record which operations raise), so the
cycle itself is a total function. -/
def check_modules (fs : FS) (env : OpEnv) (st : BotState) : CycleTrace :=
  let scanned := get_module_files fs
  let fs1 := scanned.1
  let currentModules := scanned.2
  let modulesToLoad := pyDiff currentModules st.loadedModules
  let st1 := modulesToLoad.foldl (loadOne env) st
  let modulesToUnload := pyDiff st1.loadedModules currentModules
  let st2 := modulesToUnload.foldl (unloadOne env) st1
  let modulesToReload := (pyInter currentModules st2.loadedModules).filter
    (fun name =>
      fileExists fs1 (moduleFileName name) &&
        decide (fs1.mtime (moduleFileName name) > st2.lastModuleCheck))
  let st3 := modulesToReload.foldl (reloadOne env) st2
  { fs := fs1
    state := { st3 with lastModuleCheck := env.now }
    toLoad := modulesToLoad
    toUnload := modulesToUnload
    reloaded := modulesToReload }

/-- Translation of `B055Bot.auto_load_modules` (src/bot.py lines 153-165):
scan once and attempt to load every scanned id, with per-id exceptions
caught and logged. -/
def auto_load_modules (fs : FS) (env : OpEnv) (st : BotState) : FS × BotState :=
  let scanned := get_module_files fs
  (scanned.1, scanned.2.foldl (loadOne env) st)

/-! ## Enablement policy (`ModuleBase.enabled`, src/module_base.py) -/

/-- Translation of the `ModuleBase.enabled` property (src/module_base.py
lines 45-57), with the two configuration reads
(`config.get("modules.enabled", [])`, `config.get("modules.disabled", [])`)
passed in as the string lists they yield. Python `not enabled_modules` on a
list is the emptiness test. -/
def ModuleBase.enabled (enabledModules disabledModules : List String)
    (id : String) : Bool :=
  if id ∈ disabledModules then false
  else if enabledModules.isEmpty || id ∈ enabledModules then true
  else false

/-! ## Operator reload command (`Admin.reload`, src/modules/admin.py) -/

/-- The message the `reload` command sends back to the operator: the
module-not-found error embed, the per-module success or failure embed
(failure carries the exception's text; only its presence is modelled), or
the reload-all completion embed with its success and failure counts. -/
inductive ReloadReply where
  | notFound (name : String)
  | reloadedOk (name : String)
  | reloadFailed (name : String)
  | reloadAllDone (successCount errorCount : Nat)
deriving DecidableEq, Repr

/-- Result of one `reload` command invocation: the reply sent and the ids
passed to `bot.reload_extension`, in order. -/
structure ReloadOutcome where
  reply : ReloadReply
  attempted : List String
deriving DecidableEq, Repr

/-- The reload-all branch of `Admin.reload` (src/modules/admin.py lines
118-135): iterate `list(self.bot.modules.keys())`, count successes and
failures, report both counts. -/
def Admin.reloadAll (modules : List String) (reloadOk : String → Bool) :
    ReloadOutcome :=
  let counts := modules.foldl
    (fun acc id => if reloadOk id then (acc.1 + 1, acc.2) else (acc.1, acc.2 + 1))
    (0, 0)
  ⟨.reloadAllDone counts.1 counts.2, modules⟩

/-- Translation of the `Admin.reload` command body (src/modules/admin.py
lines 100-135). The `module_name` parameter defaults to `None`; `if
module_name:` is Python truthiness, so both `None` and the empty string
take the reload-all branch. A named target absent from `self.bot.modules`
is reported as an error with no reload attempted; a known target is
reloaded with the exception, if any, caught and reported. -/
def Admin.reload (modules : List String) (reloadOk : String → Bool) :
    Option String → ReloadOutcome
  | some name =>
    if name = "" then Admin.reloadAll modules reloadOk
    else if name ∉ modules then ⟨.notFound name, []⟩
    else if reloadOk name then ⟨.reloadedOk name, [name]⟩
    else ⟨.reloadFailed name, [name]⟩
  | none => Admin.reloadAll modules reloadOk

/-! ## Lemmas: `Config.get` agrees with dot-path traversal -/

theorem getLoop_toOption_eq_followPath (data : JSON) (keys : List String) :
    (Config.getLoop data keys).toOption = followPath data keys := by
  induction keys generalizing data with
  | nil => cases data <;> rfl
  | cons k ks ih =>
    cases data with
    | obj fields =>
      simp only [Config.getLoop, JSON.index, followPath]
      cases JSON.lookup fields k with
      | none => rfl
      | some v => simpa using ih v
    | null => rfl
    | bool b => rfl
    | num n => rfl
    | str s => rfl
    | arr xs => rfl

theorem config_get_eq_followPath (data : JSON) (key : String) (default : JSON) :
    Config.get data key default = (followPath data (pySplitDot key)).getD default := by
  unfold Config.get
  rw [← getLoop_toOption_eq_followPath]
  cases Config.getLoop data (pySplitDot key) <;> rfl

/-! ## Lemmas: membership in the Python set primitives -/

@[simp] theorem mem_pyAdd {s : List String} {x y : String} :
    y ∈ pyAdd s x ↔ y ∈ s ∨ y = x := by
  by_cases h : x ∈ s
  · simp only [pyAdd, if_pos h]
    constructor
    · exact Or.inl
    · rintro (hy | rfl)
      · exact hy
      · exact h
  · simp [pyAdd, if_neg h]

@[simp] theorem mem_pyRemove {s : List String} {x y : String} :
    y ∈ pyRemove s x ↔ y ∈ s ∧ y ≠ x := by
  simp [pyRemove]

@[simp] theorem mem_pyDiff {a b : List String} {x : String} :
    x ∈ pyDiff a b ↔ x ∈ a ∧ x ∉ b := by
  simp [pyDiff]

@[simp] theorem mem_pyInter {a b : List String} {x : String} :
    x ∈ pyInter a b ↔ x ∈ a ∧ x ∈ b := by
  simp [pyInter]

/-! ## Lemmas about the three per-cycle loops -/

theorem loadOne_loaded_mem (env : OpEnv) (st : BotState) (n x : String) :
    x ∈ (loadOne env st n).loadedModules ↔
      x ∈ st.loadedModules ∨ (x = n ∧ env.loadOk n = true) := by
  unfold loadOne
  split
  · next h => simp [add_module, h]
  · next h => simp [h]

theorem loadOne_lastCheck (env : OpEnv) (st : BotState) (n : String) :
    (loadOne env st n).lastModuleCheck = st.lastModuleCheck := by
  unfold loadOne
  split <;> rfl

theorem loadOne_modules_mono (env : OpEnv) (st : BotState) (n x : String)
    (hx : x ∈ st.modules) : x ∈ (loadOne env st n).modules := by
  unfold loadOne
  split
  · simp [add_module, hx]
  · exact hx

theorem foldl_loadOne_loaded (env : OpEnv) (L : List String) (st : BotState)
    (x : String) :
    x ∈ (L.foldl (loadOne env) st).loadedModules ↔
      x ∈ st.loadedModules ∨ (x ∈ L ∧ env.loadOk x = true) := by
  induction L generalizing st with
  | nil => simp
  | cons n L ih =>
    simp only [List.foldl_cons]
    rw [ih, loadOne_loaded_mem]
    constructor
    · rintro ((hs | ⟨rfl, hn⟩) | ⟨hL, hx⟩)
      · exact Or.inl hs
      · exact Or.inr ⟨List.mem_cons_self _ _, hn⟩
      · exact Or.inr ⟨List.mem_cons_of_mem _ hL, hx⟩
    · rintro (hs | ⟨hmem, hx⟩)
      · exact Or.inl (Or.inl hs)
      · rcases List.mem_cons.mp hmem with rfl | hL
        · exact Or.inl (Or.inr ⟨rfl, hx⟩)
        · exact Or.inr ⟨hL, hx⟩

theorem foldl_loadOne_lastCheck (env : OpEnv) (L : List String) (st : BotState) :
    (L.foldl (loadOne env) st).lastModuleCheck = st.lastModuleCheck := by
  induction L generalizing st with
  | nil => rfl
  | cons n L ih => rw [List.foldl_cons, ih, loadOne_lastCheck]

theorem foldl_loadOne_modules_mono (env : OpEnv) (L : List String)
    (st : BotState) (x : String) (hx : x ∈ st.modules) :
    x ∈ (L.foldl (loadOne env) st).modules := by
  induction L generalizing st with
  | nil => exact hx
  | cons n L ih => exact ih _ (loadOne_modules_mono env st n x hx)

theorem unloadOne_loaded_mem (env : OpEnv) (st : BotState) (n x : String) :
    x ∈ (unloadOne env st n).loadedModules ↔
      x ∈ st.loadedModules ∧ ¬(x = n ∧ env.unloadOk n = true) := by
  unfold unloadOne
  split
  · next h => simp [h]
  · next h => simp [h]

theorem unloadOne_modules (env : OpEnv) (st : BotState) (n : String) :
    (unloadOne env st n).modules = st.modules := by
  unfold unloadOne
  split <;> rfl

theorem unloadOne_lastCheck (env : OpEnv) (st : BotState) (n : String) :
    (unloadOne env st n).lastModuleCheck = st.lastModuleCheck := by
  unfold unloadOne
  split <;> rfl

theorem foldl_unloadOne_loaded (env : OpEnv) (L : List String) (st : BotState)
    (x : String) :
    x ∈ (L.foldl (unloadOne env) st).loadedModules ↔
      x ∈ st.loadedModules ∧ ¬(x ∈ L ∧ env.unloadOk x = true) := by
  induction L generalizing st with
  | nil => simp
  | cons n L ih =>
    simp only [List.foldl_cons]
    rw [ih, unloadOne_loaded_mem]
    constructor
    · rintro ⟨⟨hs, hn⟩, hL⟩
      refine ⟨hs, ?_⟩
      rintro ⟨hmem, hx⟩
      rcases List.mem_cons.mp hmem with rfl | hm
      · exact hn ⟨rfl, hx⟩
      · exact hL ⟨hm, hx⟩
    · rintro ⟨hs, hno⟩
      refine ⟨⟨hs, ?_⟩, ?_⟩
      · rintro ⟨rfl, hx⟩
        exact hno ⟨List.mem_cons_self _ _, hx⟩
      · rintro ⟨hm, hx⟩
        exact hno ⟨List.mem_cons_of_mem _ hm, hx⟩

theorem foldl_unloadOne_modules (env : OpEnv) (L : List String) (st : BotState) :
    (L.foldl (unloadOne env) st).modules = st.modules := by
  induction L generalizing st with
  | nil => rfl
  | cons n L ih => rw [List.foldl_cons, ih, unloadOne_modules]

theorem foldl_unloadOne_lastCheck (env : OpEnv) (L : List String) (st : BotState) :
    (L.foldl (unloadOne env) st).lastModuleCheck = st.lastModuleCheck := by
  induction L generalizing st with
  | nil => rfl
  | cons n L ih => rw [List.foldl_cons, ih, unloadOne_lastCheck]

theorem reloadOne_loaded (env : OpEnv) (st : BotState) (n : String) :
    (reloadOne env st n).loadedModules = st.loadedModules := by
  unfold reloadOne
  split <;> rfl

theorem reloadOne_lastCheck (env : OpEnv) (st : BotState) (n : String) :
    (reloadOne env st n).lastModuleCheck = st.lastModuleCheck := by
  unfold reloadOne
  split <;> rfl

theorem reloadOne_modules_mono (env : OpEnv) (st : BotState) (n x : String)
    (hx : x ∈ st.modules) : x ∈ (reloadOne env st n).modules := by
  unfold reloadOne
  split
  · simp [add_module, hx]
  · exact hx

theorem foldl_reloadOne_loaded (env : OpEnv) (L : List String) (st : BotState) :
    (L.foldl (reloadOne env) st).loadedModules = st.loadedModules := by
  induction L generalizing st with
  | nil => rfl
  | cons n L ih => rw [List.foldl_cons, ih, reloadOne_loaded]

theorem foldl_reloadOne_lastCheck (env : OpEnv) (L : List String) (st : BotState) :
    (L.foldl (reloadOne env) st).lastModuleCheck = st.lastModuleCheck := by
  induction L generalizing st with
  | nil => rfl
  | cons n L ih => rw [List.foldl_cons, ih, reloadOne_lastCheck]

theorem foldl_reloadOne_modules_mono (env : OpEnv) (L : List String)
    (st : BotState) (x : String) (hx : x ∈ st.modules) :
    x ∈ (L.foldl (reloadOne env) st).modules := by
  induction L generalizing st with
  | nil => exact hx
  | cons n L ih => exact ih _ (reloadOne_modules_mono env st n x hx)

/-! ## Characterizations of one detection cycle -/

theorem check_modules_fs_eq (fs : FS) (env : OpEnv) (st : BotState) :
    (check_modules fs env st).fs = (get_module_files fs).1 := rfl

theorem check_modules_lastCheck (fs : FS) (env : OpEnv) (st : BotState) :
    (check_modules fs env st).state.lastModuleCheck = env.now := rfl

theorem check_modules_toLoad_mem (fs : FS) (env : OpEnv) (st : BotState)
    (x : String) :
    x ∈ (check_modules fs env st).toLoad ↔
      x ∈ (get_module_files fs).2 ∧ x ∉ st.loadedModules := by
  simp only [check_modules]
  exact mem_pyDiff

theorem check_modules_toUnload_mem (fs : FS) (env : OpEnv) (st : BotState)
    (x : String) :
    x ∈ (check_modules fs env st).toUnload ↔
      (x ∈ st.loadedModules ∨
        (x ∈ (get_module_files fs).2 ∧ x ∉ st.loadedModules ∧
          env.loadOk x = true)) ∧
      x ∉ (get_module_files fs).2 := by
  simp only [check_modules]
  rw [mem_pyDiff, foldl_loadOne_loaded]
  simp only [mem_pyDiff]
  tauto

theorem check_modules_loaded_mem (fs : FS) (env : OpEnv) (st : BotState)
    (x : String) :
    x ∈ (check_modules fs env st).state.loadedModules ↔
      (x ∈ st.loadedModules ∨
        (x ∈ (get_module_files fs).2 ∧ x ∉ st.loadedModules ∧
          env.loadOk x = true)) ∧
      ¬((x ∈ st.loadedModules ∨
          (x ∈ (get_module_files fs).2 ∧ x ∉ st.loadedModules ∧
            env.loadOk x = true)) ∧
        x ∉ (get_module_files fs).2 ∧ env.unloadOk x = true) := by
  simp only [check_modules]
  rw [foldl_reloadOne_loaded, foldl_unloadOne_loaded, foldl_loadOne_loaded]
  simp only [mem_pyDiff, foldl_loadOne_loaded]
  tauto

theorem check_modules_reloaded_mem (fs : FS) (env : OpEnv) (st : BotState)
    (x : String) :
    x ∈ (check_modules fs env st).reloaded ↔
      x ∈ (get_module_files fs).2 ∧
      ((x ∈ st.loadedModules ∨
          (x ∈ (get_module_files fs).2 ∧ x ∉ st.loadedModules ∧
            env.loadOk x = true)) ∧
        ¬((x ∈ st.loadedModules ∨
            (x ∈ (get_module_files fs).2 ∧ x ∉ st.loadedModules ∧
              env.loadOk x = true)) ∧
          x ∉ (get_module_files fs).2 ∧ env.unloadOk x = true)) ∧
      fileExists (get_module_files fs).1 (moduleFileName x) = true ∧
      (get_module_files fs).1.mtime (moduleFileName x) > st.lastModuleCheck := by
  simp only [check_modules]
  rw [List.mem_filter, mem_pyInter, foldl_unloadOne_loaded, foldl_loadOne_loaded,
    foldl_unloadOne_lastCheck, foldl_loadOne_lastCheck]
  simp only [mem_pyDiff, foldl_loadOne_loaded, Bool.and_eq_true, decide_eq_true_iff]
  tauto

theorem check_modules_modules_mono (fs : FS) (env : OpEnv) (st : BotState)
    (x : String) (hx : x ∈ st.modules) :
    x ∈ (check_modules fs env st).state.modules := by
  simp only [check_modules]
  refine foldl_reloadOne_modules_mono _ _ _ _ ?_
  rw [foldl_unloadOne_modules]
  exact foldl_loadOne_modules_mono _ _ _ _ hx

theorem reloadAll_foldl_counts (rok : String → Bool) (L : List String)
    (a b : Nat) :
    L.foldl
        (fun acc id => if rok id then (acc.1 + 1, acc.2) else (acc.1, acc.2 + 1))
        (a, b) =
      (a + L.countP rok, b + L.countP (fun x => !rok x)) := by
  induction L generalizing a b with
  | nil => simp
  | cons n L ih =>
    simp only [List.foldl_cons]
    by_cases h : rok n = true
    · rw [if_pos h, ih]
      simp [List.countP_cons, h]
      omega
    · rw [if_neg h, ih]
      simp only [Bool.not_eq_true] at h
      simp [List.countP_cons, h]
      omega

theorem reloadAll_eq_counts (modules : List String) (rok : String → Bool) :
    Admin.reloadAll modules rok =
      ⟨.reloadAllDone (modules.countP rok)
        (modules.countP (fun x => !rok x)), modules⟩ := by
  unfold Admin.reloadAll
  rw [reloadAll_foldl_counts]
  simp

theorem scan_mem_dirExists (fs : FS) (x : String)
    (h : x ∈ (get_module_files fs).2) : fs.dirExists = true := by
  unfold get_module_files at h
  cases hd : fs.dirExists
  · rw [if_pos hd] at h
    exact absurd h (List.not_mem_nil x)
  · rfl

theorem get_module_files_fst_of_dirExists (fs : FS) (h : fs.dirExists = true) :
    (get_module_files fs).1 = fs := by
  unfold get_module_files
  rw [if_neg (by simp [h])]

theorem scan_nodup (fs : FS) : (get_module_files fs).2.Nodup := by
  unfold get_module_files
  split
  · exact List.nodup_nil
  · exact List.nodup_dedup _

theorem check_modules_reloaded_nodup (fs : FS) (env : OpEnv) (st : BotState) :
    (check_modules fs env st).reloaded.Nodup := by
  simp only [check_modules, pyInter]
  exact ((scan_nodup fs).filter _).filter _

/-! ## The claims -/

/-- C10: For every dot-separated key string and every loaded configuration
dictionary, `Config.get` returns the value reached by following the
dot-separated segments when the full path exists, and returns the supplied
default whenever any segment is missing or a non-dictionary value is
traversed. `Config.get` never raises: it is a total function whose only
exception sources (`KeyError`, `TypeError` while subscripting) are caught
and mapped to the default. -/
theorem C10_config_get_follows_dot_path (data : JSON) (key : String)
    (default v : JSON) :
    (followPath data (pySplitDot key) = some v →
      Config.get data key default = v) ∧
    (followPath data (pySplitDot key) = none →
      Config.get data key default = default) := by
  constructor
  · intro h
    rw [config_get_eq_followPath, h]
    rfl
  · intro h
    rw [config_get_eq_followPath, h]
    rfl

theorem C10_witness :
    followPath
        (JSON.obj [("modules",
          JSON.obj [("enabled", JSON.arr [JSON.str "admin"]),
                    ("disabled", JSON.arr [])])])
        (pySplitDot "modules.enabled") = some (JSON.arr [JSON.str "admin"]) ∧
    Config.get
        (JSON.obj [("modules",
          JSON.obj [("enabled", JSON.arr [JSON.str "admin"]),
                    ("disabled", JSON.arr [])])])
        "modules.enabled" JSON.null = JSON.arr [JSON.str "admin"] :=
  ⟨rfl, (C10_config_get_follows_dot_path _ _ _ _).1 rfl⟩

/-- C6: `get_module_files` returns exactly the set of ids of files whose
name ends with `".py"` and does not start with `"_"`, the id being the
filename minus the suffix; when the directory does not exist it returns
the empty set and creates the directory as a side effect; and, invoked as
a method on the bot, it leaves the bot's registry state untouched. -/
theorem C6_scanner (fs : FS) (st : BotState) (n : String) :
    (fs.dirExists = false →
      (get_module_files fs).2 = [] ∧ (get_module_files fs).1.dirExists = true) ∧
    (fs.dirExists = true →
      (n ∈ (get_module_files fs).2 ↔
        ∃ f, f ∈ fs.files ∧ pyEndsWith f ".py" = true ∧
          pyStartsWith f "_" = false ∧ n = pyDropLast f 3)) ∧
    (get_module_files_on fs st).1.2 = st := by
  refine ⟨?_, ?_, rfl⟩
  · intro h
    unfold get_module_files
    rw [if_pos h]
    exact ⟨rfl, rfl⟩
  · intro h
    unfold get_module_files
    rw [if_neg (by simp [h])]
    simp only [List.mem_dedup, List.mem_map, List.mem_filter, isModuleFile,
      Bool.and_eq_true, Bool.not_eq_true']
    constructor
    · rintro ⟨f, ⟨hf, he, hs⟩, rfl⟩
      exact ⟨f, hf, he, hs, rfl⟩
    · rintro ⟨f, hf, he, hs, rfl⟩
      exact ⟨f, ⟨hf, he, hs⟩, rfl⟩

theorem C6_witness :
    (FS.mk false ["admin.py"] (fun _ => 1)).dirExists = false ∧
    (get_module_files (FS.mk false ["admin.py"] (fun _ => 1))).2 = [] ∧
    (get_module_files (FS.mk false ["admin.py"] (fun _ => 1))).1.dirExists = true :=
  ⟨rfl, (C6_scanner (FS.mk false ["admin.py"] (fun _ => 1)) initState "admin").1 rfl⟩

/-- C7: For the operator `reload` command: a named target unknown to
`self.bot.modules` yields the not-found error reply with no reload
attempted; a known target yields a structured success-or-failure reply
carrying the id (the exception is caught, not propagated), with exactly
that one reload attempted; with no target given, every currently-known
registry id is passed to `reload_extension` and the reply reports the
pair of success count and failure count. -/
theorem C7_admin_reload (modules : List String) (rok : String → Bool)
    (name : String) (hname : name ≠ "") :
    (name ∉ modules →
      Admin.reload modules rok (some name) = ⟨.notFound name, []⟩) ∧
    (name ∈ modules →
      Admin.reload modules rok (some name) =
        ⟨if rok name then .reloadedOk name else .reloadFailed name, [name]⟩) ∧
    Admin.reload modules rok none =
      ⟨.reloadAllDone (modules.countP rok) (modules.countP (fun x => !rok x)),
        modules⟩ := by
  refine ⟨?_, ?_, ?_⟩
  · intro h
    simp only [Admin.reload]
    rw [if_neg hname, if_pos h]
  · intro h
    simp only [Admin.reload]
    rw [if_neg hname, if_neg (not_not_intro h)]
    by_cases hr : rok name = true
    · rw [if_pos hr, if_pos hr]
    · rw [if_neg hr, if_neg hr]
  · show Admin.reloadAll modules rok = _
    exact reloadAll_eq_counts modules rok

theorem C7_witness :
    ("slash" : String) ≠ "" ∧ ("slash" : String) ∉ ["admin"] ∧
    Admin.reload ["admin"] (fun _ => true) (some "slash") =
      ⟨.notFound "slash", []⟩ :=
  ⟨by decide, by decide,
    (C7_admin_reload ["admin"] (fun _ => true) "slash" (by decide)).1 (by decide)⟩

/-- C1 as stated is false on the code: with scan result `{"a"}`, a deny-list
containing `"a"`, an empty allow-list, and no operation raising, the cycle
still loads `a` — `check_modules` never consults the enablement policy —
so the loaded set after the cycle is not the policy-filtered scan result. -/
theorem C1_counterexample :
    ¬ (∀ x : String,
        x ∈ (check_modules (FS.mk true ["a.py"] (fun _ => 1))
              (OpEnv.mk (fun _ => true) (fun _ => true) (fun _ => true)
                (fun s => s) 10)
              initState).state.loadedModules ↔
          (x ∈ (get_module_files (FS.mk true ["a.py"] (fun _ => 1))).2 ∧
            ModuleBase.enabled [] ["a"] x = true)) := by
  intro h
  have h1 := (h "a").mp (by decide)
  exact absurd h1.2 (by decide)

/-- C1 (amended): after one detection cycle in which no id in the cycle's
load set fails to load and no id in its unload set fails to unload, the
loaded set equals the scan result exactly — unfiltered, because
`check_modules` loads every scanned id unconditionally; the enablement
policy of `ModuleBase.enabled` gates command execution (`cog_check`), not
loading. -/
theorem C1_amended_loaded_eq_scan (fs : FS) (env : OpEnv) (st : BotState)
    (hload : ∀ x ∈ (check_modules fs env st).toLoad, env.loadOk x = true)
    (hunload : ∀ x ∈ (check_modules fs env st).toUnload, env.unloadOk x = true)
    (x : String) :
    x ∈ (check_modules fs env st).state.loadedModules ↔
      x ∈ (get_module_files fs).2 := by
  rw [check_modules_loaded_mem]
  constructor
  · rintro ⟨h1, h2⟩
    by_contra hc
    exact h2 ⟨h1, hc, hunload x ((check_modules_toUnload_mem fs env st x).mpr ⟨h1, hc⟩)⟩
  · intro hc
    by_cases hl : x ∈ st.loadedModules
    · exact ⟨Or.inl hl, fun h => h.2.1 hc⟩
    · have hok := hload x ((check_modules_toLoad_mem fs env st x).mpr ⟨hc, hl⟩)
      exact ⟨Or.inr ⟨hc, hl, hok⟩, fun h => h.2.1 hc⟩

theorem C1_witness :
    (∀ x ∈ (check_modules (FS.mk true ["a.py"] (fun _ => 2))
        (OpEnv.mk (fun _ => true) (fun _ => true) (fun _ => true) (fun s => s) 9)
        (BotState.mk [] ["gone"] 0)).toLoad,
      (OpEnv.mk (fun _ => true) (fun _ => true) (fun _ => true)
        (fun s : String => s) 9).loadOk x = true) ∧
    (∀ x ∈ (check_modules (FS.mk true ["a.py"] (fun _ => 2))
        (OpEnv.mk (fun _ => true) (fun _ => true) (fun _ => true) (fun s => s) 9)
        (BotState.mk [] ["gone"] 0)).toUnload,
      (OpEnv.mk (fun _ => true) (fun _ => true) (fun _ => true)
        (fun s : String => s) 9).unloadOk x = true) ∧
    ("a" ∈ (check_modules (FS.mk true ["a.py"] (fun _ => 2))
        (OpEnv.mk (fun _ => true) (fun _ => true) (fun _ => true) (fun s => s) 9)
        (BotState.mk [] ["gone"] 0)).state.loadedModules ↔
      "a" ∈ (get_module_files (FS.mk true ["a.py"] (fun _ => 2))).2) :=
  ⟨by decide, by decide,
    C1_amended_loaded_eq_scan (FS.mk true ["a.py"] (fun _ => 2))
      (OpEnv.mk (fun _ => true) (fun _ => true) (fun _ => true) (fun s => s) 9)
      (BotState.mk [] ["gone"] 0) (by decide) (by decide) "a"⟩

/-- C2 as stated is false on the code: `"b"` is in the cycle's unload set
and its `unload_extension` call raises, yet `"b"` is still in the loaded
set after the cycle, because `self.loaded_modules.remove` sits after the
`await` inside the same `try` block and is skipped on an exception — so
a permanently missing source file IS retried for unload on later cycles. -/
theorem C2_counterexample :
    "b" ∈ (check_modules (FS.mk true [] (fun _ => 0))
        (OpEnv.mk (fun _ => true) (fun _ => false) (fun _ => true) (fun s => s) 10)
        (BotState.mk ["b"] ["b"] 0)).toUnload ∧
    (OpEnv.mk (fun _ => true) (fun _ => false) (fun _ => true)
      (fun s : String => s) 10).unloadOk "b" = false ∧
    "b" ∈ (check_modules (FS.mk true [] (fun _ => 0))
        (OpEnv.mk (fun _ => true) (fun _ => false) (fun _ => true) (fun s => s) 10)
        (BotState.mk ["b"] ["b"] 0)).state.loadedModules := by
  decide

/-- C2 (amended): for every id in a cycle's unload set, the id is removed
from the loaded set exactly when `unload_extension` does not raise; on a
raised error the removal is skipped, the id remains in the loaded set, and
— while its source is still absent — it lands in the unload set of the
next cycle again (retried, not dropped). -/
theorem C2_amended_unload_removal (fs : FS) (env : OpEnv) (st : BotState)
    (x : String) (hx : x ∈ (check_modules fs env st).toUnload) :
    (x ∈ (check_modules fs env st).state.loadedModules ↔
      env.unloadOk x = false) ∧
    (env.unloadOk x = false →
      ∀ (fs2 : FS) (env2 : OpEnv), x ∉ (get_module_files fs2).2 →
        x ∈ (check_modules fs2 env2 (check_modules fs env st).state).toUnload) := by
  rw [check_modules_toUnload_mem] at hx
  obtain ⟨h1, h2⟩ := hx
  have hiff : x ∈ (check_modules fs env st).state.loadedModules ↔
      env.unloadOk x = false := by
    rw [check_modules_loaded_mem]
    constructor
    · rintro ⟨-, hno⟩
      cases henv : env.unloadOk x
      · rfl
      · exact absurd ⟨h1, h2, henv⟩ hno
    · intro hfalse
      refine ⟨h1, ?_⟩
      rintro ⟨-, -, htrue⟩
      rw [hfalse] at htrue
      exact Bool.false_ne_true htrue
  refine ⟨hiff, ?_⟩
  intro hfalse fs2 env2 hnot2
  rw [check_modules_toUnload_mem]
  exact ⟨Or.inl (hiff.mpr hfalse), hnot2⟩

theorem C2_witness :
    "c" ∈ (check_modules (FS.mk true [] (fun _ => 0))
        (OpEnv.mk (fun _ => true) (fun _ => false) (fun _ => true) (fun s => s) 20)
        (BotState.mk ["c"] ["c"] 0)).toUnload ∧
    ("c" ∈ (check_modules (FS.mk true [] (fun _ => 0))
        (OpEnv.mk (fun _ => true) (fun _ => false) (fun _ => true) (fun s => s) 20)
        (BotState.mk ["c"] ["c"] 0)).state.loadedModules ↔
      (OpEnv.mk (fun _ => true) (fun _ => false) (fun _ => true)
        (fun s : String => s) 20).unloadOk "c" = false) :=
  ⟨by decide,
    (C2_amended_unload_removal (FS.mk true [] (fun _ => 0))
      (OpEnv.mk (fun _ => true) (fun _ => false) (fun _ => true) (fun s => s) 20)
      (BotState.mk ["c"] ["c"] 0) "c" (by decide)).1⟩

/-- C3: within one cycle, a raised error while loading one id is caught in
that iteration of the load loop and does not prevent any other id of the
same load set from reaching the loaded set; the failed id ends up outside
the loaded set. The cycle as embedded is a total function — every per-id
exception is caught inside its loop — so nothing an automatic cycle does
propagates to a caller or aborts the remainder of the cycle. -/
theorem C3_load_failure_isolated (fs : FS) (env : OpEnv) (st : BotState)
    (a b : String)
    (ha : a ∈ (check_modules fs env st).toLoad)
    (hb : b ∈ (check_modules fs env st).toLoad)
    (hfa : env.loadOk a = false)
    (hsb : env.loadOk b = true) :
    b ∈ (check_modules fs env st).state.loadedModules ∧
    a ∉ (check_modules fs env st).state.loadedModules := by
  rw [check_modules_toLoad_mem] at ha hb
  constructor
  · rw [check_modules_loaded_mem]
    refine ⟨Or.inr ⟨hb.1, hb.2, hsb⟩, ?_⟩
    rintro ⟨-, hbc, -⟩
    exact hbc hb.1
  · rw [check_modules_loaded_mem]
    rintro ⟨h1, -⟩
    rcases h1 with h | ⟨-, -, hok⟩
    · exact ha.2 h
    · rw [hfa] at hok
      exact Bool.false_ne_true hok

theorem C3_witness :
    "a" ∈ (check_modules (FS.mk true ["a.py", "b.py"] (fun _ => 1))
        (OpEnv.mk (fun s => s == "b") (fun _ => true) (fun _ => true) (fun s => s) 10)
        initState).toLoad ∧
    "b" ∈ (check_modules (FS.mk true ["a.py", "b.py"] (fun _ => 1))
        (OpEnv.mk (fun s => s == "b") (fun _ => true) (fun _ => true) (fun s => s) 10)
        initState).toLoad ∧
    (OpEnv.mk (fun s : String => s == "b") (fun _ => true) (fun _ => true)
      (fun s : String => s) 10).loadOk "a" = false ∧
    (OpEnv.mk (fun s : String => s == "b") (fun _ => true) (fun _ => true)
      (fun s : String => s) 10).loadOk "b" = true ∧
    ("b" ∈ (check_modules (FS.mk true ["a.py", "b.py"] (fun _ => 1))
        (OpEnv.mk (fun s => s == "b") (fun _ => true) (fun _ => true) (fun s => s) 10)
        initState).state.loadedModules ∧
      "a" ∉ (check_modules (FS.mk true ["a.py", "b.py"] (fun _ => 1))
        (OpEnv.mk (fun s => s == "b") (fun _ => true) (fun _ => true) (fun s => s) 10)
        initState).state.loadedModules) :=
  ⟨by decide, by decide, by decide, by decide,
    C3_load_failure_isolated (FS.mk true ["a.py", "b.py"] (fun _ => 1))
      (OpEnv.mk (fun s => s == "b") (fun _ => true) (fun _ => true) (fun s => s) 10)
      initState "a" "b" (by decide) (by decide) (by decide) (by decide)⟩

/-- C5: for an id that is loaded and present in the scan result (its backing
file on disk after the scan), the cycle invokes `reload_extension` exactly
when the file's modification timestamp is strictly newer than the baseline
`last_module_check` recorded at the end of the previous cycle; the cycle
then records its completion timestamp (`time.time()`, the `now` oracle) as
the new baseline; and no cycle reloads an id whose file mtime does not
exceed that cycle's incoming baseline — so once the baseline is the
completion time, an unmodified file triggers no further reloads. -/
theorem C5_reload_iff_newer (fs : FS) (env : OpEnv) (st : BotState) (x : String)
    (hloaded : x ∈ st.loadedModules)
    (hscan : x ∈ (get_module_files fs).2)
    (hfile : fileExists (get_module_files fs).1 (moduleFileName x) = true) :
    (x ∈ (check_modules fs env st).reloaded ↔
      (get_module_files fs).1.mtime (moduleFileName x) > st.lastModuleCheck) ∧
    (check_modules fs env st).state.lastModuleCheck = env.now ∧
    (∀ (fs2 : FS) (env2 : OpEnv) (st2 : BotState),
      ¬((get_module_files fs2).1.mtime (moduleFileName x) > st2.lastModuleCheck) →
      x ∉ (check_modules fs2 env2 st2).reloaded) := by
  refine ⟨?_, rfl, ?_⟩
  · rw [check_modules_reloaded_mem]
    constructor
    · rintro ⟨-, -, -, hm⟩
      exact hm
    · intro hm
      exact ⟨hscan, ⟨Or.inl hloaded, fun h => h.2.1 hscan⟩, hfile, hm⟩
  · intro fs2 env2 st2 hnot
    rw [check_modules_reloaded_mem]
    rintro ⟨-, -, -, hm⟩
    exact hnot hm

theorem C5_witness :
    "a" ∈ (BotState.mk ["a"] ["a"] 3).loadedModules ∧
    "a" ∈ (get_module_files (FS.mk true ["a.py"] (fun _ => 5))).2 ∧
    fileExists (get_module_files (FS.mk true ["a.py"] (fun _ => 5))).1
      (moduleFileName "a") = true ∧
    ("a" ∈ (check_modules (FS.mk true ["a.py"] (fun _ => 5))
        (OpEnv.mk (fun _ => true) (fun _ => true) (fun _ => true) (fun s => s) 8)
        (BotState.mk ["a"] ["a"] 3)).reloaded ↔
      (get_module_files (FS.mk true ["a.py"] (fun _ => 5))).1.mtime
        (moduleFileName "a") > (BotState.mk ["a"] ["a"] 3).lastModuleCheck) :=
  ⟨by decide, by decide, by decide,
    (C5_reload_iff_newer (FS.mk true ["a.py"] (fun _ => 5))
      (OpEnv.mk (fun _ => true) (fun _ => true) (fun _ => true) (fun s => s) 8)
      (BotState.mk ["a"] ["a"] 3) "a" (by decide) (by decide) (by decide)).1⟩

/-- C8: `__init__` sets the reload baseline `last_module_check` to `0`, so
on the very first detection cycle after startup every module loaded during
setup whose source file was scanned and has a positive modification
timestamp (as every real mtime has) is passed to `reload_extension`
exactly once, despite not having been modified since startup; only at the
end of that cycle does the baseline become a real completion timestamp. -/
theorem C8_first_cycle_reloads (fs : FS) (env envSetup : OpEnv) (x : String)
    (hscan : x ∈ (get_module_files fs).2)
    (hload : envSetup.loadOk x = true)
    (hfile : fileExists (get_module_files fs).1 (moduleFileName x) = true)
    (hmtime : (get_module_files fs).1.mtime (moduleFileName x) > 0) :
    (check_modules (auto_load_modules fs envSetup initState).1 env
        (auto_load_modules fs envSetup initState).2).reloaded.count x = 1 := by
  have hd : fs.dirExists = true := scan_mem_dirExists fs x hscan
  have hfst : (get_module_files fs).1 = fs := get_module_files_fst_of_dirExists fs hd
  have hauto1 : (auto_load_modules fs envSetup initState).1 = fs := by
    unfold auto_load_modules
    exact hfst
  have hauto2 : (auto_load_modules fs envSetup initState).2 =
      (get_module_files fs).2.foldl (loadOne envSetup) initState := rfl
  have hloaded : x ∈ (auto_load_modules fs envSetup initState).2.loadedModules := by
    rw [hauto2, foldl_loadOne_loaded]
    exact Or.inr ⟨hscan, hload⟩
  have hlast : (auto_load_modules fs envSetup initState).2.lastModuleCheck = 0 := by
    rw [hauto2, foldl_loadOne_lastCheck]
    rfl
  have hmem : x ∈ (check_modules (auto_load_modules fs envSetup initState).1 env
      (auto_load_modules fs envSetup initState).2).reloaded := by
    rw [check_modules_reloaded_mem, hauto1]
    refine ⟨hscan, ⟨Or.inl hloaded, fun h => h.2.1 hscan⟩, hfile, ?_⟩
    rw [hlast]
    exact hmtime
  exact List.count_eq_one_of_mem (check_modules_reloaded_nodup _ _ _) hmem

theorem C8_witness :
    "a" ∈ (get_module_files (FS.mk true ["a.py"] (fun _ => 7))).2 ∧
    (OpEnv.mk (fun _ => true) (fun _ => true) (fun _ => true)
      (fun s : String => s) 4).loadOk "a" = true ∧
    fileExists (get_module_files (FS.mk true ["a.py"] (fun _ => 7))).1
      (moduleFileName "a") = true ∧
    (get_module_files (FS.mk true ["a.py"] (fun _ => 7))).1.mtime
      (moduleFileName "a") > 0 ∧
    (check_modules
        (auto_load_modules (FS.mk true ["a.py"] (fun _ => 7))
          (OpEnv.mk (fun _ => true) (fun _ => true) (fun _ => true) (fun s => s) 4)
          initState).1
        (OpEnv.mk (fun _ => true) (fun _ => true) (fun _ => true) (fun s => s) 11)
        (auto_load_modules (FS.mk true ["a.py"] (fun _ => 7))
          (OpEnv.mk (fun _ => true) (fun _ => true) (fun _ => true) (fun s => s) 4)
          initState).2).reloaded.count "a" = 1 :=
  ⟨by decide, by decide, by decide, by decide,
    C8_first_cycle_reloads (FS.mk true ["a.py"] (fun _ => 7))
      (OpEnv.mk (fun _ => true) (fun _ => true) (fun _ => true) (fun s => s) 11)
      (OpEnv.mk (fun _ => true) (fun _ => true) (fun _ => true) (fun s => s) 4)
      "a" (by decide) (by decide) (by decide) (by decide)⟩

/-- C9: the known-modules table (`self.modules`, the map consulted by the
operator reload command's known-id check) is monotonically non-decreasing:
`add_module` inserts keys, and no path of a detection cycle — including
unloading and the disappearance of a source file (any `fs`, any operation
outcomes) — removes one; consequently an id registered once still passes
the known-id check after any cycle, and a targeted operator reload of it
is attempted rather than rejected. -/
theorem C9_known_modules_monotone (fs : FS) (env : OpEnv) (st : BotState)
    (rok : String → Bool) (x y : String)
    (hx : x ∈ st.modules) (hxe : x ≠ "") :
    x ∈ (check_modules fs env st).state.modules ∧
    x ∈ (add_module st y).modules ∧
    (Admin.reload (check_modules fs env st).state.modules rok (some x)).reply ≠
      ReloadReply.notFound x ∧
    (Admin.reload (check_modules fs env st).state.modules rok
      (some x)).attempted = [x] := by
  have hx' : x ∈ (check_modules fs env st).state.modules :=
    check_modules_modules_mono fs env st x hx
  refine ⟨hx', mem_pyAdd.mpr (Or.inl hx), ?_, ?_⟩
  · simp only [Admin.reload]
    rw [if_neg hxe, if_neg (not_not_intro hx')]
    by_cases hr : rok x = true
    · rw [if_pos hr]
      simp
    · rw [if_neg hr]
      simp
  · simp only [Admin.reload]
    rw [if_neg hxe, if_neg (not_not_intro hx')]
    by_cases hr : rok x = true
    · rw [if_pos hr]
    · rw [if_neg hr]

theorem C9_witness :
    "admin" ∈ (BotState.mk ["admin"] ["admin"] 0).modules ∧
    ("admin" : String) ≠ "" ∧
    ("admin" ∈ (check_modules (FS.mk true [] (fun _ => 0))
        (OpEnv.mk (fun _ => true) (fun _ => true) (fun _ => true) (fun s => s) 10)
        (BotState.mk ["admin"] ["admin"] 0)).state.modules ∧
      "admin" ∈ (add_module (BotState.mk ["admin"] ["admin"] 0) "x").modules ∧
      (Admin.reload (check_modules (FS.mk true [] (fun _ => 0))
          (OpEnv.mk (fun _ => true) (fun _ => true) (fun _ => true) (fun s => s) 10)
          (BotState.mk ["admin"] ["admin"] 0)).state.modules (fun _ => false)
        (some "admin")).reply ≠ ReloadReply.notFound "admin" ∧
      (Admin.reload (check_modules (FS.mk true [] (fun _ => 0))
          (OpEnv.mk (fun _ => true) (fun _ => true) (fun _ => true) (fun s => s) 10)
          (BotState.mk ["admin"] ["admin"] 0)).state.modules (fun _ => false)
        (some "admin")).attempted = ["admin"]) :=
  ⟨by decide, by decide,
    C9_known_modules_monotone (FS.mk true [] (fun _ => 0))
      (OpEnv.mk (fun _ => true) (fun _ => true) (fun _ => true) (fun s => s) 10)
      (BotState.mk ["admin"] ["admin"] 0) (fun _ => false) "admin" "x"
      (by decide) (by decide)⟩

end B055
